import Mathlib

/-!
Verification development for the hotel deep-search system
(src/deep_search_system.py, with the analytics reader in src/api_server.py).

The embedding is shallow: Python dict/list/str/number values returned by the
search pipeline are modelled by the inductive `Json` below; the two LLM
providers (`self.groq_llm.invoke`, `self.gemini_llm.invoke`) and the library
function `json.loads` are modelled as explicit function parameters bundled in
`Providers` (they are external library calls, not code of this repository);
outbound provider invocations are recorded in an explicit call trace so that
"the secondary provider is never invoked" is an object-level statement.
Numeric literals of the source (0.7, 0.6, 1) are inert data — the pipeline
performs no arithmetic on them — and are modelled as exact rationals.
-/

/-- A Python value as produced by `json.loads` or by the dict/list literals of
`deep_search_system.py`: null, booleans, numbers, strings, lists, and dicts
(dicts keep insertion order, as Python dicts do). -/
inductive Json where
  | null : Json
  | bool (b : Bool) : Json
  | num (q : Rat) : Json
  | str (s : String) : Json
  | arr (elems : List Json) : Json
  | obj (fields : List (String × Json)) : Json

/-- Field access on a dict value: `Json.lookup j k` is the value stored under
key `k` when `j` is a dict that has that key, and `none` otherwise. -/
def Json.lookup : Json → String → Option Json
  | Json.obj fields, key => List.lookup key fields
  | _, _ => none

/-- Outcome of one provider `invoke` call: either a response object whose
`.content` attribute is the given text, or a raised exception whose `str` is
the given message. -/
inductive ProviderOutcome where
  | ok (content : String) : ProviderOutcome
  | exn (msg : String) : ProviderOutcome

/-- The external collaborators of `HotelKnowledgeDeepSearch`: the two LLM
providers set up in `__init__` (GROQ primary, Gemini secondary), and
`json.loads` (`some` = parsed value, `none` = `json.JSONDecodeError`). -/
structure Providers where
  groq : String → ProviderOutcome
  gemini : String → ProviderOutcome
  loads : String → Option Json

/-- One outbound provider invocation, recording which provider was called and
with which prompt. -/
inductive ProviderCall where
  | groqCall (prompt : String) : ProviderCall
  | geminiCall (prompt : String) : ProviderCall

/-- Outcome of `_execute_search`: a returned value, or an exception escaping
the method (message = `str` of the exception). -/
inductive ExecResult where
  | ret (v : Json) : ExecResult
  | raise (msg : String) : ExecResult

/-- Message of the `UnboundLocalError` raised at line 305 of
`deep_search_system.py` when the both-providers-failed handler evaluates
`hasattr(fallback_response, 'content')` with `fallback_response` unbound
(the exact wording is Python-version dependent; no claim depends on it). -/
def unboundLocalMsg : String :=
  "local variable fallback_response referenced before assignment"

/-- `_parse_llm_response` (deep_search_system.py lines 308-330): wraps a
non-JSON LLM response verbatim into the fixed single-finding envelope, with
`summary = response[:200] + ellipsis if len(response) > 200 else response`. -/
def parse_llm_response (response : String) : Json :=
  Json.obj [
    ("status", Json.str "parsed"),
    ("results", Json.arr [Json.obj [
      ("category", Json.str "general"),
      ("subcategory", Json.str "information_extracted"),
      ("data", Json.str response),
      ("confidence", Json.num (7/10)),
      ("source", Json.str "llm_response"),
      ("relevance_score", Json.num (6/10)),
      ("additional_context", Json.str "Parsed from text response")]]),
    ("summary", Json.str (if 200 < response.length then response.take 200 ++ "..." else response)),
    ("total_matches", Json.num 1),
    ("search_metadata", Json.obj [
      ("query_analysis", Json.str "general_text_search"),
      ("search_strategy", Json.str "llm_parsing"),
      ("processing_time", Json.str "fallback_method")])]

/-- The enhanced prompt built at lines 238-277 of `_execute_search`: the fixed
specialist template with the caller prompt and search type interpolated
(the literal braces of the requested response format come from the doubled
braces of the Python f-string). -/
def enhancedPrompt (prompt search_type : String) : String :=
  "\n        You are a hotel information specialist with deep domain knowledge.\n        \n        Your task is to search through available hotel data and provide comprehensive results.\n        \n        Query: " ++ prompt ++ "\n        Search Type: " ++ search_type ++ "\n        \n        Instructions:\n        1. Analyze the query for key information needs\n        2. Look for relevant patterns and data structures\n        3. Extract specific, actionable information\n        4. Provide confidence scores for each finding\n        5. Suggest related information that might be helpful\n        \n        Response Format:\n        \x7b\n            \"status\": \"success|partial|not_found\",\n            \"results\": [\n                \x7b\n                    \"category\": \"main_category\",\n                    \"subcategory\": \"specific_subcategory\", \n                    \"data\": \"specific_information\",\n                    \"confidence\": 0.0-1.0,\n                    \"source\": \"data_source_type\",\n                    \"relevance_score\": 0.0-1.0,\n                    \"additional_context\": \"related_info\"\n                \x7d\n            ],\n            \"summary\": \"brief_overview\",\n            \"total_matches\": number,\n            \"search_metadata\": \x7b\n                \"query_analysis\": \"query_breakdown\",\n                \"search_strategy\": \"method_used\",\n                \"processing_time\": \"duration\"\n            \x7d\n        \x7d\n        \n        Be thorough but focused on providing actionable hotel management data.\n        "

/-- `_execute_search` (deep_search_system.py lines 235-306), with the outbound
provider invocations recorded in a trace.  Control flow of the source:
try GROQ on the enhanced prompt; on success `json.loads` the content and
return the parsed value as-is, or on `JSONDecodeError` return
`_parse_llm_response(content)`; if GROQ raised, try Gemini identically; if
the Gemini `invoke` itself raised, the handler at lines 302-306 builds the
error dict — but that path is reached only when `fallback_response` was never
assigned, so evaluating `hasattr(fallback_response, 'content')` raises
`UnboundLocalError`, which escapes the method before the dict is returned. -/
def execute_search (P : Providers) (prompt search_type : String) : ExecResult × List ProviderCall :=
  let ep := enhancedPrompt prompt search_type
  match P.groq ep with
  | ProviderOutcome.ok content =>
    (match P.loads content with
     | some parsed => (ExecResult.ret parsed, [ProviderCall.groqCall ep])
     | none => (ExecResult.ret (parse_llm_response content), [ProviderCall.groqCall ep]))
  | ProviderOutcome.exn _e =>
    match P.gemini ep with
    | ProviderOutcome.ok content =>
      (match P.loads content with
       | some parsed => (ExecResult.ret parsed, [ProviderCall.groqCall ep, ProviderCall.geminiCall ep])
       | none => (ExecResult.ret (parse_llm_response content), [ProviderCall.groqCall ep, ProviderCall.geminiCall ep]))
    | ProviderOutcome.exn _e2 =>
      (ExecResult.raise unboundLocalMsg, [ProviderCall.groqCall ep, ProviderCall.geminiCall ep])

/-- Prompt template of `_search_booking_data` (lines 95-114). -/
def bookingPrompt (query : String) : String :=
  "\n        Search for booking information related to: \"" ++ query ++ "\"\n        \n        Look for:\n        - Booking dates and availability\n        - Room types and pricing\n        - Booking status\n        - Guest information\n        - Special requests\n        \n        Search patterns:\n        - Room numbers (101, 102, A1, B2, etc.)\n        - Date patterns (YYYY-MM-DD, DD/MM/YYYY)\n        - Status patterns (confirmed, pending, cancelled)\n        - Price patterns (THB, USD, etc.)\n        \n        Provide results in structured format.\n        "

/-- Prompt template of `_search_financial_data` (lines 121-147). -/
def financialPrompt (query : String) : String :=
  "\n        Search for financial information related to: \"" ++ query ++ "\"\n        \n        Look for:\n        - Revenue and expenses\n        - Invoice numbers and dates\n        - Payment methods\n        - Financial reports\n        - Budget information\n        - Cost centers\n        \n        Search patterns:\n        - Invoice numbers (INV-, Receipt-, #)\n        - Amount patterns (numbers with currency symbols)\n        - Date patterns for financial periods\n        - Department codes\n        - Budget line items\n        \n        Provide structured financial analysis.\n        "

/-- Prompt template of `_search_guest_data` (lines 149-175). -/
def guestPrompt (query : String) : String :=
  "\n        Search for guest information related to: \"" ++ query ++ "\"\n        \n        Look for:\n        - Guest names and contact details\n        - Booking history\n        - Preferences and special needs\n        - Loyalty program status\n        - Feedback and complaints\n        - Contact information\n        \n        Search patterns:\n        - Guest IDs (GUEST-, CUST-)\n        - Phone numbers (Thai: 0xxx, international: +xx)\n        - Email patterns\n        - Membership tiers\n        - Stay patterns\n        \n        Provide comprehensive guest profile data.\n        "

/-- Prompt template of `_search_staff_data` (lines 177-204). -/
def staffPrompt (query : String) : String :=
  "\n        Search for staff information related to: \"" ++ query ++ "\"\n        \n        Look for:\n        - Staff names and positions\n        - Work schedules\n        - Department assignments\n        - Contact information\n        - Performance records\n        - Training certifications\n        - Emergency contacts\n        \n        Search patterns:\n        - Employee IDs (EMP-, STAFF-)\n        - Department codes (FRONT, HK, MGMT)\n        - Position titles\n        - Shift patterns\n        - Badge numbers\n        \n        Provide complete staff directory information.\n        "

/-- Prompt template of `_search_policies_procedures` (lines 206-233). -/
def policiesPrompt (query : String) : String :=
  "\n        Search for hotel policies and procedures related to: \"" ++ query ++ "\"\n        \n        Look for:\n        - Operating procedures\n        - Safety protocols\n        - Service standards\n        - Emergency procedures\n        - Company policies\n        - Regulatory compliance\n        - Training materials\n        \n        Search patterns:\n        - Policy numbers (POL-, SOP-)\n        - Procedure keywords (check-in, checkout, emergency)\n        - Regulation references\n        - Safety guidelines\n        - Quality standards\n        \n        Provide comprehensive policy documentation.\n        "

/-- The try/except wrapper shared by the five `_search_*` category methods:
call `_execute_search`; `except Exception as e: return {'error': str(e)}`
converts an escaping exception into an error dict (with no status field). -/
def categoryCall (P : Providers) (prompt search_type : String) : Json × List ProviderCall :=
  match execute_search P prompt search_type with
  | (ExecResult.ret v, calls) => (v, calls)
  | (ExecResult.raise msg, calls) => (Json.obj [("error", Json.str msg)], calls)

/-- `_search_booking_data` (lines 95-119). -/
def search_booking_data (P : Providers) (query : String) : Json × List ProviderCall :=
  categoryCall P (bookingPrompt query) "booking_search"

/-- `_search_financial_data` (lines 121-147). -/
def search_financial_data (P : Providers) (query : String) : Json × List ProviderCall :=
  categoryCall P (financialPrompt query) "financial_search"

/-- `_search_guest_data` (lines 149-175). -/
def search_guest_data (P : Providers) (query : String) : Json × List ProviderCall :=
  categoryCall P (guestPrompt query) "guest_search"

/-- `_search_staff_data` (lines 177-204). -/
def search_staff_data (P : Providers) (query : String) : Json × List ProviderCall :=
  categoryCall P (staffPrompt query) "staff_search"

/-- `_search_policies_procedures` (lines 206-233). -/
def search_policies_procedures (P : Providers) (query : String) : Json × List ProviderCall :=
  categoryCall P (policiesPrompt query) "policy_search"

/-- The category loop of `deep_search_hotel_data` (lines 43-60), unrolled over
the fixed `search_layers` list.  Keys are `f'layer_{i+1}_{search_func.__name__}'`
(double underscore: the method names start with `_`).  The loop's own
`except Exception` handler is dead in this model because every `_search_*`
method already converts all failures into a returned dict. -/
def run_layers (P : Providers) (query : String) : List (String × Json) × List ProviderCall :=
  ([("layer_1__search_booking_data", (search_booking_data P query).1),
    ("layer_2__search_financial_data", (search_financial_data P query).1),
    ("layer_3__search_guest_data", (search_guest_data P query).1),
    ("layer_4__search_staff_data", (search_staff_data P query).1),
    ("layer_5__search_policies_procedures", (search_policies_procedures P query).1)],
   (search_booking_data P query).2 ++ (search_financial_data P query).2 ++
   (search_guest_data P query).2 ++ (search_staff_data P query).2 ++
   (search_policies_procedures P query).2)

/-- The synthesis prompt of `deep_search_hotel_data` (lines 63-78), with the
query and the serialization of the per-layer results interpolated. -/
def synthesisPrompt (query serialized : String) : String :=
  "\n        You are a hotel data analyst. Based on the following search results, \n        provide a comprehensive analysis for the query: \"" ++ query ++ "\"\n        \n        Search Results:\n        " ++ serialized ++ "\n        \n        Provide:\n        1. Main findings\n        2. Specific data points\n        3. Related information\n        4. Actionable insights\n        5. Sources confidence scores\n        \n        Format as detailed JSON response.\n        "

/-- The `HotelKnowledgeDeepSearch` instance state: `__init__` (lines 25-35)
sets up the two providers (modelled separately as `Providers`) and
`self.search_history = []`. -/
structure HotelKnowledgeDeepSearch where
  search_history : List String

/-- The dict built and returned by `deep_search_hotel_data` (lines 37-93),
together with the trace of provider calls.  `dumps` models the library call
`json.dumps(results, indent=2, default=str)` and `now` the library call
`datetime.now().isoformat()`.  The synthesis block (lines 80-88): GROQ on the
synthesis prompt, whose raw `.content` is stored unparsed; Gemini with the
same prompt if GROQ raised; on a second failure the error dict
`{'error': f"Both LLMs failed: {e}, {e2}"}` holding both messages. -/
def deep_search_payload (P : Providers) (dumps : List (String × Json) → String)
    (now : String) (query : String) : List (String × Json) × List ProviderCall :=
  let results := (run_layers P query).1
  let layer_calls := (run_layers P query).2
  let sp := synthesisPrompt query (dumps results)
  let synth : Json × List ProviderCall :=
    match P.groq sp with
    | ProviderOutcome.ok content => (Json.str content, [ProviderCall.groqCall sp])
    | ProviderOutcome.exn e =>
      match P.gemini sp with
      | ProviderOutcome.ok content =>
        (Json.str content, [ProviderCall.groqCall sp, ProviderCall.geminiCall sp])
      | ProviderOutcome.exn e2 =>
        (Json.obj [("error", Json.str ("Both LLMs failed: " ++ e ++ ", " ++ e2))],
         [ProviderCall.groqCall sp, ProviderCall.geminiCall sp])
  (results ++ [("synthesis", synth.1), ("search_timestamp", Json.str now),
               ("query", Json.str query)],
   layer_calls ++ synth.2)

/-- `deep_search_hotel_data` (lines 37-93) as a state transformer on the
instance: the method body never assigns to `self.search_history` (or any other
attribute), so the instance state is returned unchanged alongside the result
dict and the provider-call trace. -/
def deep_search_hotel_data (P : Providers) (dumps : List (String × Json) → String)
    (now : String) (self : HotelKnowledgeDeepSearch) (query : String) :
    HotelKnowledgeDeepSearch × List (String × Json) × List ProviderCall :=
  (self, deep_search_payload P dumps now query)

/-- The `search_count` field served by `/analytics` in src/api_server.py
(line 201): `len(deep_search.search_history)`. -/
def analytics_search_count (ds : HotelKnowledgeDeepSearch) : Nat :=
  ds.search_history.length

/-- Providers on which every `invoke` of either LLM raises and no content
parses: the terminal-failure scenario of `_execute_search`. -/
def P_bothFail : Providers :=
  { groq := fun _ => ProviderOutcome.exn "groq unreachable"
  , gemini := fun _ => ProviderOutcome.exn "gemini unreachable"
  , loads := fun _ => none }

/-- Providers for a second terminal-failure scenario with different provider
error messages. -/
def P_bothFail2 : Providers :=
  { groq := fun _ => ProviderOutcome.exn "timeout"
  , gemini := fun _ => ProviderOutcome.exn "rate limit"
  , loads := fun _ => none }

/-- A normally populated structured search result, as parsed from a provider
response that follows the requested response format. -/
def okLayerResult : Json :=
  Json.obj [
    ("status", Json.str "success"),
    ("results", Json.arr [Json.obj [("category", Json.str "booking"), ("data", Json.str "room 101")]]),
    ("summary", Json.str "found"),
    ("total_matches", Json.num 1),
    ("search_metadata", Json.obj [])]

/-- Providers for the one-category-failure scenario of the spec: both LLMs
raise exactly on the enhanced booking prompt for query `q`; every other
prompt succeeds with content `ok-text`, which parses into `okLayerResult`. -/
def P_cat1fail : Providers :=
  { groq := fun p => if p = enhancedPrompt (bookingPrompt "q") "booking_search" then ProviderOutcome.exn "net down" else ProviderOutcome.ok "ok-text"
  , gemini := fun p => if p = enhancedPrompt (bookingPrompt "q") "booking_search" then ProviderOutcome.exn "still down" else ProviderOutcome.ok "ok-text"
  , loads := fun c => if c = "ok-text" then some okLayerResult else none }

set_option maxRecDepth 8000 in
theorem financial_ne_booking :
    enhancedPrompt (financialPrompt "q") "financial_search" ≠ enhancedPrompt (bookingPrompt "q") "booking_search" := by decide

set_option maxRecDepth 8000 in
theorem guest_ne_booking :
    enhancedPrompt (guestPrompt "q") "guest_search" ≠ enhancedPrompt (bookingPrompt "q") "booking_search" := by decide

set_option maxRecDepth 8000 in
theorem staff_ne_booking :
    enhancedPrompt (staffPrompt "q") "staff_search" ≠ enhancedPrompt (bookingPrompt "q") "booking_search" := by decide

set_option maxRecDepth 8000 in
theorem policies_ne_booking :
    enhancedPrompt (policiesPrompt "q") "policy_search" ≠ enhancedPrompt (bookingPrompt "q") "booking_search" := by decide

set_option maxRecDepth 8000 in
theorem synthesis_ne_booking :
    synthesisPrompt "q" "S" ≠ enhancedPrompt (bookingPrompt "q") "booking_search" := by decide

theorem cat1_groq_booking :
    P_cat1fail.groq (enhancedPrompt (bookingPrompt "q") "booking_search") = ProviderOutcome.exn "net down" := by
  simp [P_cat1fail]

theorem cat1_gemini_booking :
    P_cat1fail.gemini (enhancedPrompt (bookingPrompt "q") "booking_search") = ProviderOutcome.exn "still down" := by
  simp [P_cat1fail]

theorem cat1_groq_financial :
    P_cat1fail.groq (enhancedPrompt (financialPrompt "q") "financial_search") = ProviderOutcome.ok "ok-text" := by
  simp only [P_cat1fail]
  rw [if_neg financial_ne_booking]

theorem cat1_groq_guest :
    P_cat1fail.groq (enhancedPrompt (guestPrompt "q") "guest_search") = ProviderOutcome.ok "ok-text" := by
  simp only [P_cat1fail]
  rw [if_neg guest_ne_booking]

theorem cat1_groq_staff :
    P_cat1fail.groq (enhancedPrompt (staffPrompt "q") "staff_search") = ProviderOutcome.ok "ok-text" := by
  simp only [P_cat1fail]
  rw [if_neg staff_ne_booking]

theorem cat1_groq_policies :
    P_cat1fail.groq (enhancedPrompt (policiesPrompt "q") "policy_search") = ProviderOutcome.ok "ok-text" := by
  simp only [P_cat1fail]
  rw [if_neg policies_ne_booking]

theorem cat1_groq_synthesis :
    P_cat1fail.groq (synthesisPrompt "q" "S") = ProviderOutcome.ok "ok-text" := by
  simp only [P_cat1fail]
  rw [if_neg synthesis_ne_booking]

theorem cat1_loads_ok : P_cat1fail.loads "ok-text" = some okLayerResult := by
  simp [P_cat1fail]

/-- C1: the claim says `_execute_search` always returns a `LayerResult` with a
non-null status field and never lets an exception escape.  The code violates
this: when both provider calls raise, the terminal handler at lines 302-306
evaluates `hasattr(fallback_response, 'content')` with `fallback_response`
unbound and the resulting `UnboundLocalError` escapes `_execute_search`
instead of the `status: 'error'` dict being returned. -/
theorem C1_execute_search_raises_on_double_provider_failure :
    (execute_search P_bothFail "test" "booking_search").1 = ExecResult.raise unboundLocalMsg := rfl

/-- C2: the claim says that when both providers fail `execute` returns a
`LayerResult` with status `error` carrying both failure messages.  On the
code, for every prompt and every pair of provider failures, the both-fail
path instead raises `UnboundLocalError` before the error dict (whose `error`
field would moreover interpolate only the second message, `f"Search failed:
{e2}"`) can be returned. -/
theorem C2_double_failure_raises_instead_of_error_result (P : Providers)
    (prompt search_type e e2 : String)
    (hg : P.groq (enhancedPrompt prompt search_type) = ProviderOutcome.exn e)
    (hm : P.gemini (enhancedPrompt prompt search_type) = ProviderOutcome.exn e2) :
    (execute_search P prompt search_type).1 = ExecResult.raise unboundLocalMsg := by
  simp only [execute_search, hg, hm]

/-- Witness for C2 at concrete providers that fail with a timeout and a rate
limit. -/
theorem C2_double_failure_witness :
    (execute_search P_bothFail2 "p" "booking_search").1 = ExecResult.raise unboundLocalMsg :=
  C2_double_failure_raises_instead_of_error_result P_bothFail2 "p" "booking_search"
    "timeout" "rate limit" rfl rfl

/-- C3: on the scenario where both providers are unreachable for the booking
category only, `deep_search_hotel_data` does return exactly the five layer
keys plus `synthesis` (and the timestamp and query echoes), and the four
sibling categories are normally populated — but the failing category's entry
is `{'error': <UnboundLocalError text>}` with NO `status` field, because
`_execute_search` raised and the category wrapper's `except` produced a bare
error dict, not the claimed `status == "error"` result. -/
theorem C3_single_category_failure_shape :
    (deep_search_hotel_data P_cat1fail (fun _ => "S") "now" ⟨[]⟩ "q").2.1 =
      [("layer_1__search_booking_data", Json.obj [("error", Json.str unboundLocalMsg)]),
       ("layer_2__search_financial_data", okLayerResult),
       ("layer_3__search_guest_data", okLayerResult),
       ("layer_4__search_staff_data", okLayerResult),
       ("layer_5__search_policies_procedures", okLayerResult),
       ("synthesis", Json.str "ok-text"),
       ("search_timestamp", Json.str "now"),
       ("query", Json.str "q")] ∧
    (Json.obj [("error", Json.str unboundLocalMsg)]).lookup "status" = none := by
  refine ⟨?_, rfl⟩
  simp only [deep_search_hotel_data, deep_search_payload, run_layers,
    search_booking_data, search_financial_data, search_guest_data, search_staff_data,
    search_policies_procedures, categoryCall, execute_search,
    cat1_groq_booking, cat1_gemini_booking, cat1_groq_financial, cat1_groq_guest,
    cat1_groq_staff, cat1_groq_policies, cat1_groq_synthesis, cat1_loads_ok]
  rfl

/-- C4: the claim says every `deep_search_hotel_data` call appends the query
to `search_history`.  The code never writes to `self.search_history` (it is
only initialized empty in `__init__` and read by `/analytics` in
api_server.py), so the history — and the analytics search count — is
unchanged by every call, instead of growing by one. -/
theorem C4_search_history_never_appended (P : Providers)
    (dumps : List (String × Json) → String) (now : String)
    (self : HotelKnowledgeDeepSearch) (query : String) :
    (deep_search_hotel_data P dumps now self query).1.search_history = self.search_history ∧
    analytics_search_count (deep_search_hotel_data P dumps now self query).1 =
      analytics_search_count self :=
  ⟨rfl, rfl⟩

/-- C5: `_parse_llm_response` is a pure total function that, for every input
string (the empty string included), returns the status-`parsed` envelope with
exactly one finding carrying the input verbatim as `data`, confidence 0.7,
relevance score 0.6 and source `llm_response`, and a `summary` equal to the
input when its length is at most 200 and to the first 200 characters followed
by an ellipsis otherwise; being a function, two calls on the same input are
identical. -/
theorem C5_parse_llm_response_envelope (s : String) :
    (parse_llm_response s).lookup "status" = some (Json.str "parsed") ∧
    (parse_llm_response s).lookup "results" = some (Json.arr [Json.obj [
      ("category", Json.str "general"),
      ("subcategory", Json.str "information_extracted"),
      ("data", Json.str s),
      ("confidence", Json.num (7/10)),
      ("source", Json.str "llm_response"),
      ("relevance_score", Json.num (6/10)),
      ("additional_context", Json.str "Parsed from text response")]]) ∧
    (parse_llm_response s).lookup "summary" =
      some (Json.str (if s.length ≤ 200 then s else s.take 200 ++ "...")) := by
  refine ⟨rfl, rfl, ?_⟩
  have h : (parse_llm_response s).lookup "summary" =
      some (Json.str (if 200 < s.length then s.take 200 ++ "..." else s)) := rfl
  rw [h]
  rcases Nat.lt_or_ge 200 s.length with hl | hl
  · rw [if_pos hl, if_neg (Nat.not_le.mpr hl)]
  · rw [if_neg (Nat.not_lt.mpr hl), if_pos hl]

/-- C6: whenever the primary provider succeeds and its content parses as JSON,
`_execute_search` returns the parsed primary output and the call trace holds
the single GROQ invocation — the secondary provider is never invoked. -/
theorem C6_primary_success_skips_secondary (P : Providers)
    (prompt search_type content : String) (v : Json)
    (hg : P.groq (enhancedPrompt prompt search_type) = ProviderOutcome.ok content)
    (hl : P.loads content = some v) :
    (execute_search P prompt search_type).1 = ExecResult.ret v ∧
    (execute_search P prompt search_type).2 =
      [ProviderCall.groqCall (enhancedPrompt prompt search_type)] := by
  refine ⟨?_, ?_⟩ <;> simp only [execute_search, hg, hl]

/-- Providers whose primary succeeds with content that parses into a
structured success record; the secondary would fail if it were ever called. -/
def P_primaryOk : Providers :=
  { groq := fun _ => ProviderOutcome.ok "raw structured output"
  , gemini := fun _ => ProviderOutcome.exn "secondary must not be called"
  , loads := fun _ => some (Json.obj [("status", Json.str "success")]) }

/-- Witness for C6 at concrete providers. -/
theorem C6_primary_success_witness :
    (execute_search P_primaryOk "p" "booking_search").1 =
      ExecResult.ret (Json.obj [("status", Json.str "success")]) ∧
    (execute_search P_primaryOk "p" "booking_search").2 =
      [ProviderCall.groqCall (enhancedPrompt "p" "booking_search")] :=
  C6_primary_success_skips_secondary P_primaryOk "p" "booking_search"
    "raw structured output" (Json.obj [("status", Json.str "success")]) rfl rfl

/-- C7: when the primary fails and the secondary succeeds, the result of
`_execute_search` is a function of the secondary's output alone — two runs
whose primaries fail with arbitrary, possibly different errors but whose
secondary and parser agree produce the same returned value. -/
theorem C7_result_independent_of_primary_failure
    (g1 g2 gem : String → ProviderOutcome) (l : String → Option Json)
    (prompt search_type e1 e2 content : String)
    (h1 : g1 (enhancedPrompt prompt search_type) = ProviderOutcome.exn e1)
    (h2 : g2 (enhancedPrompt prompt search_type) = ProviderOutcome.exn e2)
    (hs : gem (enhancedPrompt prompt search_type) = ProviderOutcome.ok content) :
    (execute_search ⟨g1, gem, l⟩ prompt search_type).1 =
      (execute_search ⟨g2, gem, l⟩ prompt search_type).1 := by
  simp only [execute_search, h1, h2, hs]

/-- Witness for C7: a timeout versus an authentication failure on the
primary, with the same succeeding secondary, yield the same result. -/
theorem C7_noninterference_witness :
    (execute_search ⟨fun _ => ProviderOutcome.exn "timeout",
        fun _ => ProviderOutcome.ok "hello", fun _ => none⟩ "test" "booking_search").1 =
      (execute_search ⟨fun _ => ProviderOutcome.exn "auth failure",
        fun _ => ProviderOutcome.ok "hello", fun _ => none⟩ "test" "booking_search").1 :=
  C7_result_independent_of_primary_failure
    (fun _ => ProviderOutcome.exn "timeout") (fun _ => ProviderOutcome.exn "auth failure")
    (fun _ => ProviderOutcome.ok "hello") (fun _ => none)
    "test" "booking_search" "timeout" "auth failure" "hello" rfl rfl rfl

/-- The prompt of the synthesis call issued by `deep_search_hotel_data`:
the synthesis template around the query and the serialization of the five
per-layer results. -/
def synthesis_prompt_of (P : Providers) (dumps : List (String × Json) → String)
    (query : String) : String :=
  synthesisPrompt query (dumps (run_layers P query).1)

/-- C8: after the five categories resolve, one synthesis call is issued whose
prompt embeds the serialized five-layer results; if the primary provider
fails on it the secondary is invoked with the same prompt, and if both fail
the `synthesis` entry of the returned dict is an error record carrying both
failure messages while the aggregate — all five layer keys plus `synthesis`
(and timestamp and query echo) — is still returned. -/
theorem C8_synthesis_fallback_and_terminal_error (P : Providers)
    (dumps : List (String × Json) → String) (now : String)
    (self : HotelKnowledgeDeepSearch) (query e e2 : String)
    (hg : P.groq (synthesis_prompt_of P dumps query) = ProviderOutcome.exn e)
    (hm : P.gemini (synthesis_prompt_of P dumps query) = ProviderOutcome.exn e2) :
    List.lookup "synthesis" (deep_search_hotel_data P dumps now self query).2.1 =
      some (Json.obj [("error", Json.str ("Both LLMs failed: " ++ e ++ ", " ++ e2))]) ∧
    ProviderCall.groqCall (synthesis_prompt_of P dumps query) ∈
      (deep_search_hotel_data P dumps now self query).2.2 ∧
    ProviderCall.geminiCall (synthesis_prompt_of P dumps query) ∈
      (deep_search_hotel_data P dumps now self query).2.2 ∧
    (∃ a b : String, synthesis_prompt_of P dumps query =
      a ++ dumps (run_layers P query).1 ++ b) ∧
    ((deep_search_hotel_data P dumps now self query).2.1).map Prod.fst =
      ["layer_1__search_booking_data", "layer_2__search_financial_data",
       "layer_3__search_guest_data", "layer_4__search_staff_data",
       "layer_5__search_policies_procedures", "synthesis", "search_timestamp", "query"] := by
  simp only [synthesis_prompt_of] at hg hm ⊢
  refine ⟨?_, ?_, ?_,
    ⟨"\n        You are a hotel data analyst. Based on the following search results, \n        provide a comprehensive analysis for the query: \"" ++ query ++ "\"\n        \n        Search Results:\n        ",
     "\n        \n        Provide:\n        1. Main findings\n        2. Specific data points\n        3. Related information\n        4. Actionable insights\n        5. Sources confidence scores\n        \n        Format as detailed JSON response.\n        ", rfl⟩, ?_⟩
  · simp only [deep_search_hotel_data, deep_search_payload, hg, hm]
    simp only [run_layers]
    rfl
  · simp only [deep_search_hotel_data, deep_search_payload, hg, hm, List.mem_append,
      List.mem_cons]
    simp
  · simp only [deep_search_hotel_data, deep_search_payload, hg, hm, List.mem_append,
      List.mem_cons]
    simp
  · simp only [deep_search_hotel_data, deep_search_payload, hg, hm]
    simp only [run_layers]
    rfl

/-- Providers on which every call of either LLM raises, with messages naming
the synthesis scenario. -/
def P_synthFail : Providers :=
  { groq := fun _ => ProviderOutcome.exn "synth groq down"
  , gemini := fun _ => ProviderOutcome.exn "synth gemini down"
  , loads := fun _ => none }

/-- Witness for C8 at concrete providers failing on the synthesis call. -/
theorem C8_synthesis_witness :
    List.lookup "synthesis"
        (deep_search_hotel_data P_synthFail (fun _ => "S") "now" ⟨[]⟩ "q").2.1 =
      some (Json.obj [("error",
        Json.str ("Both LLMs failed: " ++ "synth groq down" ++ ", " ++ "synth gemini down"))]) ∧
    ProviderCall.groqCall (synthesis_prompt_of P_synthFail (fun _ => "S") "q") ∈
      (deep_search_hotel_data P_synthFail (fun _ => "S") "now" ⟨[]⟩ "q").2.2 ∧
    ProviderCall.geminiCall (synthesis_prompt_of P_synthFail (fun _ => "S") "q") ∈
      (deep_search_hotel_data P_synthFail (fun _ => "S") "now" ⟨[]⟩ "q").2.2 ∧
    (∃ a b : String, synthesis_prompt_of P_synthFail (fun _ => "S") "q" =
      a ++ (fun _ => "S") (run_layers P_synthFail "q").1 ++ b) ∧
    ((deep_search_hotel_data P_synthFail (fun _ => "S") "now" ⟨[]⟩ "q").2.1).map Prod.fst =
      ["layer_1__search_booking_data", "layer_2__search_financial_data",
       "layer_3__search_guest_data", "layer_4__search_staff_data",
       "layer_5__search_policies_procedures", "synthesis", "search_timestamp", "query"] :=
  C8_synthesis_fallback_and_terminal_error P_synthFail (fun _ => "S") "now" ⟨[]⟩ "q"
    "synth groq down" "synth gemini down" rfl rfl

/-- C9: `_execute_search` performs no schema validation after a successful
JSON parse — whatever value `json.loads` produced from a succeeding primary
response is returned as-is, whether or not it has the `LayerResult` shape. -/
theorem C9_no_schema_validation_after_parse (P : Providers)
    (prompt search_type content : String) (v : Json)
    (hg : P.groq (enhancedPrompt prompt search_type) = ProviderOutcome.ok content)
    (hl : P.loads content = some v) :
    (execute_search P prompt search_type).1 = ExecResult.ret v := by
  simp only [execute_search, hg, hl]

/-- Providers whose primary succeeds with content that is valid JSON but not
a record at all: a bare number. -/
def P_bareNumber : Providers :=
  { groq := fun _ => ProviderOutcome.ok "5"
  , gemini := fun _ => ProviderOutcome.exn "unused"
  , loads := fun _ => some (Json.num 5) }

/-- Witness for C9: a provider output parsing to the bare number 5 is
returned verbatim — it is no dict, so it has no status or results fields. -/
theorem C9_bare_number_witness :
    (execute_search P_bareNumber "p" "booking_search").1 = ExecResult.ret (Json.num 5) :=
  C9_no_schema_validation_after_parse P_bareNumber "p" "booking_search" "5" (Json.num 5) rfl rfl

/-- C10: whenever the primary provider call succeeds, the call trace holds
exactly the single primary invocation — even when the content fails JSON
parsing, in which case the Normalizer fallback `_parse_llm_response` supplies
the result; the secondary provider is never invoked. -/
theorem C10_parse_failure_uses_normalizer_not_secondary (P : Providers)
    (prompt search_type content : String)
    (hg : P.groq (enhancedPrompt prompt search_type) = ProviderOutcome.ok content) :
    (execute_search P prompt search_type).2 =
      [ProviderCall.groqCall (enhancedPrompt prompt search_type)] ∧
    (P.loads content = none →
      (execute_search P prompt search_type).1 = ExecResult.ret (parse_llm_response content)) := by
  constructor
  · cases hl : P.loads content <;> simp only [execute_search, hg, hl]
  · intro hl
    simp only [execute_search, hg, hl]

/-- Providers whose primary succeeds with unparseable plain text. -/
def P_plainText : Providers :=
  { groq := fun _ => ProviderOutcome.ok "hello"
  , gemini := fun _ => ProviderOutcome.exn "unused secondary"
  , loads := fun _ => none }

/-- Witness for C10 at a primary success with unparseable content. -/
theorem C10_plain_text_witness :
    (execute_search P_plainText "test" "booking_search").2 =
      [ProviderCall.groqCall (enhancedPrompt "test" "booking_search")] ∧
    (execute_search P_plainText "test" "booking_search").1 =
      ExecResult.ret (parse_llm_response "hello") :=
  ⟨(C10_parse_failure_uses_normalizer_not_secondary P_plainText "test" "booking_search"
      "hello" rfl).1,
   (C10_parse_failure_uses_normalizer_not_secondary P_plainText "test" "booking_search"
      "hello" rfl).2 rfl⟩
